import Mathlib

/-!
Shallow embedding of the "special request" single-page form client
(`src/types.ts`, `src/unnamed/part_000`).

The component keeps its state in a collection of `useState` hooks; we model
that state as one record `AppState`. Each event handler of the source
(`handleAddItem`, `handleItemChange`, `handleDeleteItem`, `handleSubmit`,
the `filteredProducts` effect, the qty input's `onChange`) becomes a pure
function on `AppState`. `setTimeout` calls are modelled as appending the
scheduled (delay, status) pair to a ghost `timers` list; the network
request of `handleSubmit` is returned alongside the new state; generated
line-item ids are also logged in a ghost `genIds` field so their
session-wide uniqueness can be stated.
-/

namespace SpecialRequest

/-- `Store` from `types.ts`. -/
structure Store where
  code : String
  name : String
deriving DecidableEq, Repr

/-- `Product` from `types.ts`. -/
structure Product where
  code : String
  desc : String
deriving DecidableEq, Repr

/-- `RequestItem` from `types.ts` (a `Product` plus id, qty, reason). -/
structure RequestItem where
  code : String
  desc : String
  id : String
  qty : Int
  reason : String
deriving DecidableEq, Repr

/-- The tag of a `Status` from `types.ts`. -/
inductive StatusType where
  | success
  | error
  | info
  | idle
deriving DecidableEq, Repr

/-- `Status` from `types.ts`. -/
structure Status where
  type : StatusType
  message : String
deriving DecidableEq, Repr

/-- One entry of the submission payload's `items` array:
`{ procode, prodesc, qty: String(qty), reason }`. -/
structure PayloadItem where
  procode : String
  prodesc : String
  qty : String
  reason : String
deriving DecidableEq, Repr

/-- The submission payload `{ store, items }` built by `handleSubmit`. -/
structure SubmitPayload where
  store : String
  items : List PayloadItem
deriving DecidableEq, Repr

/-- The component state: one field per `useState` hook of the source,
plus ghost fields `timers` (statuses scheduled by `setTimeout`),
`inFlight` (number of outstanding submission fetches) and `genIds`
(every line-item id generated by `handleAddItem` during the session). -/
structure AppState where
  stores : List Store
  products : List Product
  requestItems : List RequestItem
  selectedStore : String
  searchTerm : String
  filteredProducts : List Product
  status : Status
  isLoading : Bool
  isSubmitting : Bool
  timers : List (Nat × Status)
  inFlight : Nat
  genIds : List String
deriving DecidableEq, Repr

/-- The initial state: the `useState` initial values of the source. -/
def initState : AppState where
  stores := []
  products := []
  requestItems := []
  selectedStore := ""
  searchTerm := ""
  filteredProducts := []
  status := ⟨.idle, ""⟩
  isLoading := true
  isSubmitting := false
  timers := []
  inFlight := 0
  genIds := []

/-! ### JavaScript string primitives used by the source -/

/-- Whitespace for JavaScript `trim` / `parseInt` (the ASCII part of the
WhiteSpace/LineTerminator productions). -/
def jsIsWhite (c : Char) : Bool :=
  c == ' ' || c == '\t' || c == '\n' || c == '\r' || c == '\x0b' || c == '\x0c'

/-- JavaScript `String.prototype.trim`: strip leading and trailing
whitespace. -/
def jsTrim (l : List Char) : List Char :=
  ((l.dropWhile jsIsWhite).reverse.dropWhile jsIsWhite).reverse

/-- JavaScript `String.prototype.includes` on char lists:
`jsStrContains hay needle` is true iff `needle` occurs contiguously in
`hay`. -/
def jsStrContains : List Char → List Char → Bool
  | [], needle => needle.isEmpty
  | c :: t, needle => needle.isPrefixOf (c :: t) || jsStrContains t needle

/-- JavaScript `String.prototype.toLowerCase`, modelled charwise. -/
def jsLower (s : String) : List Char :=
  s.data.map Char.toLower

/-- Value of a decimal digit character. -/
def digitVal? (c : Char) : Option Nat :=
  if c.isDigit then some (c.toNat - '0'.toNat) else none

/-- Value of a hexadecimal digit character. -/
def hexVal? (c : Char) : Option Nat :=
  if c.isDigit then some (c.toNat - '0'.toNat)
  else if 'a' ≤ c && c ≤ 'f' then some (10 + c.toNat - 'a'.toNat)
  else if 'A' ≤ c && c ≤ 'F' then some (10 + c.toNat - 'A'.toNat)
  else none

/-- Accumulate the longest leading run of digits. -/
def parseDigitsAux (val? : Char → Option Nat) (base : Nat) :
    List Char → Nat → Nat
  | [], acc => acc
  | c :: t, acc =>
    match val? c with
    | some d => parseDigitsAux val? base t (acc * base + d)
    | none => acc

/-- Parse the longest leading run of digits; `none` when it is empty
(JavaScript `NaN`). -/
def parseDigits (val? : Char → Option Nat) (base : Nat) :
    List Char → Option Nat
  | [] => none
  | c :: t =>
    match val? c with
    | some d => some (parseDigitsAux val? base t d)
    | none => none

/-- JavaScript `parseInt(s)` with no radix argument: skip leading
whitespace, read an optional sign, honour a `0x`/`0X` hexadecimal prefix,
then read the longest run of digits; `none` models `NaN`. -/
def jsParseInt (s : String) : Option Int :=
  let l := s.data.dropWhile jsIsWhite
  let sign : Int := match l with
    | '-' :: _ => -1
    | _ => 1
  let l' : List Char := match l with
    | '-' :: t => t
    | '+' :: t => t
    | _ => l
  match l' with
  | '0' :: x :: t =>
    if x == 'x' || x == 'X' then
      (parseDigits hexVal? 16 t).map (fun n => sign * (n : Int))
    else
      (parseDigits digitVal? 10 l').map (fun n => sign * (n : Int))
  | _ => (parseDigits digitVal? 10 l').map (fun n => sign * (n : Int))

/-- The qty input's coercion `parseInt(e.target.value) || 1`
(part_000 line 228): `NaN` and `0`/`-0` are falsy and fall back to `1`,
any other parsed value is kept. -/
def jsParseIntOr1 (s : String) : Int :=
  match jsParseInt s with
  | none => 1
  | some 0 => 1
  | some v => v

/-! ### Search (the `filteredProducts` effect, part_000 lines 41-53) -/

/-- The filter predicate of the effect:
`p.code.toLowerCase().includes(q.toLowerCase()) ||
 p.desc.toLowerCase().includes(q.toLowerCase())`. -/
def jsMatches (q : String) (p : Product) : Bool :=
  jsStrContains (jsLower p.code) (jsLower q) ||
    jsStrContains (jsLower p.desc) (jsLower q)

/-- The `filteredProducts` effect: empty results for a
whitespace-only query, otherwise the first 10 matching products in
catalog order. -/
def searchResults (q : String) (products : List Product) : List Product :=
  if (jsTrim q.data).isEmpty then []
  else (products.filter (jsMatches q)).take 10

/-! ### Request-list handlers (part_000 lines 67-96) -/

/-- `handleAddItem` (part_000 lines 67-84). `now` is the value of
`Date.now()` at the call. A duplicate product code is rejected with a
transient informational status (its clearing `setTimeout` is logged in
`timers`); otherwise a new line item with id `` `${code}-${now}` ``,
`qty = 1`, `reason = ''` is appended, the generated id is logged in
`genIds`, and the search box and result list are cleared. -/
def handleAddItem (s : AppState) (product : Product) (now : Nat) : AppState :=
  if s.requestItems.any (fun item => item.code == product.code) then
    { s with status := ⟨.info, "Produk sudah ada di daftar."⟩,
             timers := s.timers ++ [(3000, ⟨.idle, ""⟩)] }
  else
    let newItem : RequestItem :=
      { code := product.code
        desc := product.desc
        id := product.code ++ "-" ++ toString now
        qty := 1
        reason := "" }
    { s with requestItems := s.requestItems ++ [newItem],
             searchTerm := "",
             filteredProducts := [],
             genIds := s.genIds ++ [newItem.id] }

/-- The `field`/`value` pair passed to `handleItemChange`; its two call
sites pass `('qty', parseInt(...) || 1)` and `('reason', e.target.value)`. -/
inductive ItemUpdate where
  | setQty (n : Int)
  | setReason (r : String)
deriving DecidableEq, Repr

/-- Apply `{ ...item, [field]: value }`. -/
def applyUpdate (item : RequestItem) : ItemUpdate → RequestItem
  | .setQty n => { item with qty := n }
  | .setReason r => { item with reason := r }

/-- `handleItemChange` (part_000 lines 86-92): replace the item matching
`id` in place, leaving order and all other items unchanged. -/
def handleItemChange (s : AppState) (id : String) (u : ItemUpdate) : AppState :=
  { s with requestItems :=
      s.requestItems.map (fun item =>
        if item.id == id then applyUpdate item u else item) }

/-- The qty input's `onChange` (part_000 line 228):
`handleItemChange(item.id, 'qty', parseInt(e.target.value) || 1)`. -/
def qtyInputChange (s : AppState) (id : String) (raw : String) : AppState :=
  handleItemChange s id (.setQty (jsParseIntOr1 raw))

/-- `handleDeleteItem` (part_000 lines 94-96). -/
def handleDeleteItem (s : AppState) (id : String) : AppState :=
  { s with requestItems := s.requestItems.filter (fun item => item.id != id) }

/-! ### Submission (part_000 lines 98-146) -/

/-- The payload built by `handleSubmit` (part_000 lines 111-119). -/
def mkPayload (s : AppState) : SubmitPayload :=
  { store := s.selectedStore
    items := s.requestItems.map (fun it =>
      { procode := it.code
        prodesc := it.desc
        qty := toString it.qty
        reason := it.reason }) }

/-- The synchronous part of a validated submit: set `isSubmitting`,
show the sending message, start the fetch (tracked by `inFlight`). -/
def submitStart (s : AppState) : AppState :=
  { s with isSubmitting := true,
           status := ⟨.info, "Mengirim data..."⟩,
           inFlight := s.inFlight + 1 }

/-- Resolution of the submission fetch. `transportOk = true` is the
no-exception branch (success assumed, list and store cleared, a 5000 ms
status reset scheduled); `false` is the `catch` branch (network error
status, list and store untouched). Either way the `finally` clears
`isSubmitting`. -/
def submitResolve (s : AppState) (transportOk : Bool) : AppState :=
  if transportOk then
    { s with status := ⟨.success,
               "✅ Data berhasil dikirim! Mohon periksa Google Sheet untuk konfirmasi."⟩,
             requestItems := [],
             selectedStore := "",
             timers := s.timers ++ [(5000, ⟨.idle, ""⟩)],
             isSubmitting := false,
             inFlight := s.inFlight - 1 }
  else
    { s with status := ⟨.error,
               "❌ Gagal submit: Terjadi kesalahan jaringan. Pastikan Anda terhubung ke internet."⟩,
             isSubmitting := false,
             inFlight := s.inFlight - 1 }

/-- The synchronous part of `handleSubmit` up to and including starting
the fetch: the two validation checks in source order, then
`submitStart`. -/
def clickStep (s : AppState) : AppState :=
  if s.selectedStore = "" then
    { s with status := ⟨.error, "Pilih store terlebih dahulu!"⟩ }
  else if s.requestItems.length = 0 then
    { s with status := ⟨.error, "Tambahkan minimal satu item!"⟩ }
  else submitStart s

/-- `handleSubmit` run to completion with fetch outcome `transportOk`:
the final state, paired with the list of payloads actually sent (empty
when validation aborts before the fetch). -/
def handleSubmit (s : AppState) (transportOk : Bool) :
    AppState × List SubmitPayload :=
  if s.selectedStore = "" then
    ({ s with status := ⟨.error, "Pilih store terlebih dahulu!"⟩ }, [])
  else if s.requestItems.length = 0 then
    ({ s with status := ⟨.error, "Tambahkan minimal satu item!"⟩ }, [])
  else
    (submitResolve (submitStart s) transportOk, [mkPayload s])

/-! ### The event system

One labelled step per user or runtime event of the component. The
guards come from the view: the submit button is rendered with
`disabled={isSubmitting || isLoading}`, a search result can only be
clicked while it is displayed, and a status timer can only fire if it
was scheduled. -/

/-- `disabled={isSubmitting || isLoading}` on the submit button
(part_000 line 267), negated: whether a click can happen. -/
def submitEnabled (s : AppState) : Bool :=
  !(s.isSubmitting || s.isLoading)

/-- Labels of the event system. -/
inductive Label where
  | selectStore (v : String)
  | searchInput (q : String)
  | outsideClick
  | addItem (p : Product) (now : Nat)
  | removeItem (id : String)
  | qtyInput (id : String) (raw : String)
  | reasonInput (id : String) (r : String)
  | loadOk (stores : List Store) (products : List Product)
  | loadFail (msg : String)
  | timerFire (d : Nat) (st : Status)
  | submitClick
  | fetchDone (transportOk : Bool)

/-- One event of the running component. Every constructor's target state
is the corresponding handler of the source applied to the current
state. -/
inductive Step : AppState → Label → AppState → Prop
  | selectStore (s : AppState) (v : String) :
      Step s (.selectStore v) { s with selectedStore := v }
  | searchInput (s : AppState) (q : String) :
      Step s (.searchInput q)
        { s with searchTerm := q,
                 filteredProducts := searchResults q s.products }
  | outsideClick (s : AppState) :
      Step s .outsideClick { s with filteredProducts := [] }
  | addItem (s : AppState) (p : Product) (now : Nat)
      (h : p ∈ s.filteredProducts) :
      Step s (.addItem p now) (handleAddItem s p now)
  | removeItem (s : AppState) (id : String) :
      Step s (.removeItem id) (handleDeleteItem s id)
  | qtyInput (s : AppState) (id : String) (raw : String) :
      Step s (.qtyInput id raw) (qtyInputChange s id raw)
  | reasonInput (s : AppState) (id : String) (r : String) :
      Step s (.reasonInput id r) (handleItemChange s id (.setReason r))
  | loadOk (s : AppState) (stores : List Store) (products : List Product) :
      Step s (.loadOk stores products)
        { s with stores := stores,
                 products := products,
                 filteredProducts := searchResults s.searchTerm products,
                 status := ⟨.idle, ""⟩,
                 isLoading := false }
  | loadFail (s : AppState) (msg : String) :
      Step s (.loadFail msg)
        { s with status := ⟨.error, "Gagal load master data: " ++ msg⟩,
                 isLoading := false }
  | timerFire (s : AppState) (d : Nat) (st : Status)
      (h : (d, st) ∈ s.timers) :
      Step s (.timerFire d st)
        { s with status := st, timers := s.timers.erase (d, st) }
  | submitClick (s : AppState) (h : submitEnabled s = true) :
      Step s .submitClick (clickStep s)
  | fetchDone (s : AppState) (ok : Bool) (h : 0 < s.inFlight) :
      Step s (.fetchDone ok) (submitResolve s ok)

/-- States reachable from the initial state by events. -/
def Reachable (s : AppState) : Prop :=
  Relation.ReflTransGen (fun a b => ∃ l, Step a l b) initState s

/-! ### Session traces of request-list operations (for id generation) -/

/-- An add or remove performed during a session; `now` is the `Date.now()`
value observed by the add. -/
inductive SessionOp where
  | add (p : Product) (now : Nat)
  | remove (id : String)
deriving Repr

/-- Apply one session operation. -/
def applyOp (s : AppState) : SessionOp → AppState
  | .add p now => handleAddItem s p now
  | .remove id => handleDeleteItem s id

/-- Run a list of session operations from a state. -/
def runOps (s : AppState) : List SessionOp → AppState
  | [] => s
  | op :: rest => runOps (applyOp s op) rest

/-! ### The specification-side search predicate

`ciSubstr q s` is the spec's wording for C5: the string `s` "contains the
query as a case-insensitive substring", i.e. some contiguous piece of `s`
equals `q` up to letter case. -/

/-- `q` occurs in `s` as a case-insensitive substring: some contiguous
substring of `s` lowercases to the lowercase of `q`. -/
def CiSubstr (q s : String) : Prop :=
  ∃ t : List Char, t <:+: s.data ∧ t.map Char.toLower = jsLower q

/-- `inFlight` agrees with `isSubmitting` in every reachable state. -/
def InvFlight (s : AppState) : Prop :=
  s.inFlight = (if s.isSubmitting then 1 else 0)

/-! ### Concrete states used to instantiate the theorems -/

/-- After the catalog load succeeds with one store and one product. -/
def w1 : AppState :=
  { initState with
      stores := [⟨"S1", "Store One"⟩]
      products := [⟨"P1", "Widget"⟩]
      filteredProducts := searchResults initState.searchTerm [⟨"P1", "Widget"⟩]
      status := ⟨.idle, ""⟩
      isLoading := false }

/-- After the user picks the store. -/
def w2 : AppState := { w1 with selectedStore := "[S1] Store One" }

/-- After the user types "wid" in the search box. -/
def w3 : AppState :=
  { w2 with searchTerm := "wid", filteredProducts := searchResults "wid" w2.products }

/-- After the user clicks the displayed search result. -/
def w4 : AppState := handleAddItem w3 ⟨"P1", "Widget"⟩ 7

/-- After the user clicks Submit: a submission is now in flight. -/
def w5 : AppState := clickStep w4

/-! ### Helper lemmas -/

lemma jsStrContains_iff (hay needle : List Char) :
    jsStrContains hay needle = true ↔ needle <:+: hay := by
  induction hay with
  | nil => simp [jsStrContains, List.isEmpty_iff]
  | cons c t ih =>
      simp [jsStrContains, ih, List.infix_cons_iff, List.isPrefixOf_iff_prefix]

lemma infix_map_iff (f : Char → Char) (q s : List Char) :
    q.map f <:+: s.map f ↔ ∃ t, t <:+: s ∧ t.map f = q.map f := by
  constructor
  · rintro ⟨a, b, h⟩
    obtain ⟨u, v, huv, hu, hv⟩ := List.map_eq_append_iff.mp h.symm
    obtain ⟨u1, u2, hu12, hu1, hu2⟩ := List.map_eq_append_iff.mp hu
    exact ⟨u2, ⟨u1, v, by rw [huv, hu12]⟩, hu2⟩
  · rintro ⟨t, ⟨a, b, hab⟩, hmap⟩
    exact ⟨a.map f, b.map f, by rw [← hab]; simp [hmap]⟩

lemma ciSubstr_iff_contains (q s : String) :
    CiSubstr q s ↔ jsStrContains (jsLower s) (jsLower q) = true := by
  unfold CiSubstr jsLower
  rw [jsStrContains_iff]
  exact (infix_map_iff Char.toLower q.data s.data).symm

lemma jsMatches_iff (q : String) (p : Product) :
    jsMatches q p = true ↔ (CiSubstr q p.code ∨ CiSubstr q p.desc) := by
  simp [jsMatches, ciSubstr_iff_contains]

lemma handleAddItem_reject (x : AppState) (p : Product) (t : Nat)
    (h : x.requestItems.any (fun item => item.code == p.code) = true) :
    handleAddItem x p t =
      { x with status := ⟨.info, "Produk sudah ada di daftar."⟩,
               timers := x.timers ++ [(3000, ⟨.idle, ""⟩)] } := by
  simp [handleAddItem, h]

lemma handleAddItem_fresh (x : AppState) (p : Product) (t : Nat)
    (h : x.requestItems.any (fun item => item.code == p.code) = false) :
    handleAddItem x p t =
      { x with requestItems := x.requestItems ++
                 [{ code := p.code, desc := p.desc,
                    id := p.code ++ "-" ++ toString t, qty := 1, reason := "" }],
               searchTerm := "",
               filteredProducts := [],
               genIds := x.genIds ++ [p.code ++ "-" ++ toString t] } := by
  simp [handleAddItem, h]

lemma step_preserves_invFlight {s s' : AppState} {l : Label}
    (h : Step s l s') (hi : InvFlight s) : InvFlight s' := by
  cases h with
  | selectStore v => exact hi
  | searchInput q => exact hi
  | outsideClick => exact hi
  | addItem p now hmem =>
      unfold handleAddItem
      split <;> exact hi
  | removeItem id => exact hi
  | qtyInput id raw => exact hi
  | reasonInput id r => exact hi
  | loadOk stores products => exact hi
  | loadFail msg => exact hi
  | timerFire d st hmem => exact hi
  | submitClick hEn =>
      unfold clickStep
      split
      · exact hi
      · split
        · exact hi
        · unfold InvFlight submitStart at *
          have hsub : s.isSubmitting = false := by
            unfold submitEnabled at hEn
            simp at hEn
            exact hEn.1
          simp [hsub] at hi
          simp [hsub, hi]
  | fetchDone ok hpos =>
      unfold InvFlight submitResolve at *
      by_cases hsub : s.isSubmitting = true
      · simp [hsub] at hi
        split <;> simp [hi]
      · simp [hsub] at hi
        rw [hi] at hpos
        exact absurd hpos (by simp)

lemma reachable_invFlight (s : AppState) (h : Reachable s) : InvFlight s := by
  induction h with
  | refl => rfl
  | tail _ hstep ih =>
      obtain ⟨l, hstep⟩ := hstep
      exact step_preserves_invFlight hstep ih

/-- The state `w5` (one submission in flight) is reachable from the
initial state by load, store selection, search, add, submit-click. -/
lemma w5_reachable : Reachable w5 :=
  Relation.ReflTransGen.tail
    (Relation.ReflTransGen.tail
      (Relation.ReflTransGen.tail
        (Relation.ReflTransGen.tail
          (Relation.ReflTransGen.tail Relation.ReflTransGen.refl
            ⟨_, Step.loadOk initState [⟨"S1", "Store One"⟩] [⟨"P1", "Widget"⟩]⟩)
          ⟨_, Step.selectStore w1 "[S1] Store One"⟩)
        ⟨_, Step.searchInput w2 "wid"⟩)
      ⟨_, Step.addItem w3 ⟨"P1", "Widget"⟩ 7 (by decide)⟩)
    ⟨_, Step.submitClick w4 (by decide)⟩

/-- Claim C6: in every reachable state at most one submission request is
in flight, and while `isSubmitting` is true no submit-click event is
possible (the button is disabled), so a second concurrent submission can
never be initiated. -/
theorem C6_submit_guard (s : AppState) (h : Reachable s) :
    s.inFlight ≤ 1 ∧
      (s.isSubmitting = true → ∀ s' : AppState, ¬ Step s .submitClick s') := by
  have hi := reachable_invFlight s h
  constructor
  · rw [InvFlight] at hi
    rw [hi]
    split <;> simp
  · intro hsub s' hstep
    cases hstep with
    | submitClick hEn =>
        rw [submitEnabled, hsub] at hEn
        simp at hEn

/-- Witness for C6 at the reachable state `w5`, which has a submission
in flight (`isSubmitting = true`, `inFlight = 1`). -/
theorem C6_submit_guard_witness :
    w5.inFlight ≤ 1 ∧
      (w5.isSubmitting = true → ∀ s' : AppState, ¬ Step w5 .submitClick s') :=
  C6_submit_guard w5 w5_reachable

/-- Claim C1 is violated by the code: the qty-update path
`parseInt(e.target.value) || 1` does fall back to `1` on unparseable
input (`NaN`) and on `0`, but a negative input such as `"-5"` parses to
`-5`, which is truthy, so `-5` is stored as the item's qty. The claim
says a negative value is never stored. -/
theorem C1_qty_negative :
    jsParseIntOr1 "-5" = -5
    ∧ (qtyInputChange
        { initState with requestItems := [⟨"P1", "Widget", "P1-7", 1, ""⟩] }
        "P1-7" "-5").requestItems = [⟨"P1", "Widget", "P1-7", -5, ""⟩]
    ∧ jsParseIntOr1 "abc" = 1 ∧ jsParseIntOr1 "" = 1 ∧ jsParseIntOr1 "0" = 1 := by
  decide

/-- Claim C2: when the submission fetch throws, `handleSubmit` sets the
network-error status, leaves the request list and the selected store
exactly as they were, and clears `isSubmitting`. -/
theorem C2_transport_error (s : AppState)
    (h1 : s.selectedStore ≠ "") (h2 : s.requestItems ≠ []) :
    (handleSubmit s false).1.status =
      ⟨.error, "❌ Gagal submit: Terjadi kesalahan jaringan. Pastikan Anda terhubung ke internet."⟩
    ∧ (handleSubmit s false).1.requestItems = s.requestItems
    ∧ (handleSubmit s false).1.selectedStore = s.selectedStore
    ∧ (handleSubmit s false).1.isSubmitting = false := by
  have hlen : s.requestItems.length ≠ 0 := by simpa using h2
  simp [handleSubmit, submitResolve, submitStart, h1, hlen]

/-- Witness for C2 at the concrete state `w4` (store selected, one
item). -/
theorem C2_transport_error_witness :
    (handleSubmit w4 false).1.status =
      ⟨.error, "❌ Gagal submit: Terjadi kesalahan jaringan. Pastikan Anda terhubung ke internet."⟩
    ∧ (handleSubmit w4 false).1.requestItems = w4.requestItems
    ∧ (handleSubmit w4 false).1.selectedStore = w4.selectedStore
    ∧ (handleSubmit w4 false).1.isSubmitting = false :=
  C2_transport_error w4 (by decide) (by decide)

/-- Claim C3: when the submission fetch completes without a transport
exception, `handleSubmit` sets the success status, empties the request
list, clears the selected store, clears `isSubmitting`, and schedules a
reset of the status to idle/empty after 5000 ms. -/
theorem C3_success_resets (s : AppState)
    (h1 : s.selectedStore ≠ "") (h2 : s.requestItems ≠ []) :
    (handleSubmit s true).1.status =
      ⟨.success, "✅ Data berhasil dikirim! Mohon periksa Google Sheet untuk konfirmasi."⟩
    ∧ (handleSubmit s true).1.requestItems = []
    ∧ (handleSubmit s true).1.selectedStore = ""
    ∧ (handleSubmit s true).1.isSubmitting = false
    ∧ (handleSubmit s true).1.timers = s.timers ++ [(5000, ⟨.idle, ""⟩)] := by
  have hlen : s.requestItems.length ≠ 0 := by simpa using h2
  simp [handleSubmit, submitResolve, submitStart, h1, hlen]

/-- Witness for C3 at the concrete state `w4`. -/
theorem C3_success_resets_witness :
    (handleSubmit w4 true).1.status =
      ⟨.success, "✅ Data berhasil dikirim! Mohon periksa Google Sheet untuk konfirmasi."⟩
    ∧ (handleSubmit w4 true).1.requestItems = []
    ∧ (handleSubmit w4 true).1.selectedStore = ""
    ∧ (handleSubmit w4 true).1.isSubmitting = false
    ∧ (handleSubmit w4 true).1.timers = w4.timers ++ [(5000, ⟨.idle, ""⟩)] :=
  C3_success_resets w4 (by decide) (by decide)

/-- Claim C4: `handleSubmit` checks the store first and the list second;
on the first failing check it sets the corresponding error status and
returns, sending nothing and changing no other state field — in
particular, with no store selected and an empty list, the store error is
the one reported. -/
theorem C4_validation_order (s : AppState) (ok : Bool) :
    (s.selectedStore = "" →
      handleSubmit s ok =
        ({ s with status := ⟨.error, "Pilih store terlebih dahulu!"⟩ }, []))
    ∧ (s.selectedStore ≠ "" → s.requestItems = [] →
      handleSubmit s ok =
        ({ s with status := ⟨.error, "Tambahkan minimal satu item!"⟩ }, [])) := by
  constructor
  · intro h
    simp [handleSubmit, h]
  · intro h1 h2
    simp [handleSubmit, h1, h2]

/-- Witness for C4: at the initial state (no store, empty list) the
store error is reported with no request sent; with a store but an empty
list the item error is reported. -/
theorem C4_validation_order_witness :
    (handleSubmit initState true =
      ({ initState with status := ⟨.error, "Pilih store terlebih dahulu!"⟩ }, []))
    ∧ (handleSubmit { initState with selectedStore := "[S1] Store One" } true =
      ({ initState with
           selectedStore := "[S1] Store One"
           status := ⟨.error, "Tambahkan minimal satu item!"⟩ }, [])) :=
  ⟨(C4_validation_order initState true).1 rfl,
   (C4_validation_order { initState with selectedStore := "[S1] Store One" } true).2
     (by decide) rfl⟩

/-- Claim C5: the search contract. A whitespace-only query yields no
results; otherwise the result is exactly the first at-most-10 products of
the catalog, in catalog order (a sublist of the catalog), whose code or
description contains the query as a case-insensitive substring — the
code's lowercase-inclusion test is proved equivalent to the
case-insensitive-substring predicate `CiSubstr`. -/
theorem C5_search_contract (q : String) (ps : List Product) :
    ((jsTrim q.data).isEmpty = true → searchResults q ps = [])
    ∧ ((jsTrim q.data).isEmpty = false →
        searchResults q ps = (ps.filter (jsMatches q)).take 10)
    ∧ (∀ p : Product, jsMatches q p = true ↔ (CiSubstr q p.code ∨ CiSubstr q p.desc))
    ∧ (searchResults q ps).Sublist ps
    ∧ (searchResults q ps).length ≤ 10 := by
  refine ⟨?_, ?_, jsMatches_iff q, ?_, ?_⟩
  · intro h
    simp [searchResults, h]
  · intro h
    simp [searchResults, h]
  · unfold searchResults
    split
    · exact List.nil_sublist ps
    · exact (List.take_sublist 10 _).trans (List.filter_sublist ps)
  · unfold searchResults
    split
    · simp
    · simp

/-- Witness for C5: a whitespace query returns nothing; the query "WID"
matches the product ("P1", "Widget") case-insensitively. -/
theorem C5_search_contract_witness :
    (searchResults " " [⟨"P1", "Widget"⟩] = [])
    ∧ (searchResults "WID" [⟨"P1", "Widget"⟩] =
        ([⟨"P1", "Widget"⟩].filter (jsMatches "WID")).take 10)
    ∧ (jsMatches "WID" ⟨"P1", "Widget"⟩ = true ↔
        (CiSubstr "WID" "P1" ∨ CiSubstr "WID" "Widget")) :=
  ⟨(C5_search_contract " " [⟨"P1", "Widget"⟩]).1 (by decide),
   (C5_search_contract "WID" [⟨"P1", "Widget"⟩]).2.1 (by decide),
   (C5_search_contract "WID" [⟨"P1", "Widget"⟩]).2.2.1 ⟨"P1", "Widget"⟩⟩

/-- Claim C7 is violated by the code: ids are `` `${code}-${Date.now()}` ``
and `Date.now()` is not unique across calls. Adding "P1", removing it,
and re-adding it within the same millisecond (both adds observe
`Date.now() = 5`) generates the id "P1-5" twice: the generated ids are
not pairwise distinct. -/
theorem C7_id_collision :
    (runOps initState
        [.add ⟨"P1", "Widget"⟩ 5, .remove "P1-5", .add ⟨"P1", "Widget"⟩ 5]).genIds
      = ["P1-5", "P1-5"]
    ∧ ¬ (runOps initState
        [.add ⟨"P1", "Widget"⟩ 5, .remove "P1-5", .add ⟨"P1", "Widget"⟩ 5]).genIds.Nodup := by
  decide

/-- Claim C8: when validation passes, `handleSubmit` sends exactly one
request, whose payload is the selected store token together with one
entry per line item, in list order, carrying the item's code,
description, qty rendered as a string, and reason. -/
theorem C8_payload_shape (s : AppState) (ok : Bool)
    (h1 : s.selectedStore ≠ "") (h2 : s.requestItems ≠ []) :
    (handleSubmit s ok).2.length = 1
    ∧ (handleSubmit s ok).2 =
        [{ store := s.selectedStore
           items := s.requestItems.map (fun it =>
             { procode := it.code
               prodesc := it.desc
               qty := toString it.qty
               reason := it.reason }) }] := by
  have hlen : s.requestItems.length ≠ 0 := by simpa using h2
  simp [handleSubmit, mkPayload, h1, hlen]

/-- Witness for C8 at the concrete state `w4`. -/
theorem C8_payload_shape_witness :
    (handleSubmit w4 true).2.length = 1
    ∧ (handleSubmit w4 true).2 =
        [{ store := w4.selectedStore
           items := w4.requestItems.map (fun it =>
             { procode := it.code
               prodesc := it.desc
               qty := toString it.qty
               reason := it.reason }) }] :=
  C8_payload_shape w4 true (by decide) (by decide)

/-- Claim C9: adding twice with the same product code leaves exactly one
line item with that code — the second call is rejected and changes
nothing but the status (a transient informational message whose clearing
timer is scheduled). The hypothesis is the list's duplicate-free
invariant (at most one item with that code before the adds), which adds
themselves maintain. -/
theorem C9_add_idempotent (s : AppState) (p p' : Product) (t t' : Nat)
    (hc : p'.code = p.code)
    (hinv : s.requestItems.countP (fun it => it.code == p.code) ≤ 1) :
    handleAddItem (handleAddItem s p t) p' t' =
      { handleAddItem s p t with
          status := ⟨.info, "Produk sudah ada di daftar."⟩,
          timers := (handleAddItem s p t).timers ++ [(3000, ⟨.idle, ""⟩)] }
    ∧ (handleAddItem (handleAddItem s p t) p' t').requestItems.countP
        (fun it => it.code == p.code) = 1 := by
  by_cases hdup : s.requestItems.any (fun item => item.code == p.code) = true
  · have h1 := handleAddItem_reject s p t hdup
    have hany : (handleAddItem s p t).requestItems.any
        (fun item => item.code == p'.code) = true := by
      rw [h1, hc]
      exact hdup
    have h2 := handleAddItem_reject (handleAddItem s p t) p' t' hany
    refine ⟨h2, ?_⟩
    rw [h2, h1]
    show s.requestItems.countP (fun it => it.code == p.code) = 1
    have hpos : 0 < s.requestItems.countP (fun it => it.code == p.code) := by
      rw [List.countP_pos_iff]
      simpa using hdup
    omega
  · rw [Bool.not_eq_true] at hdup
    have h1 := handleAddItem_fresh s p t hdup
    have hany : (handleAddItem s p t).requestItems.any
        (fun item => item.code == p'.code) = true := by
      rw [h1, hc]
      simp
    have h2 := handleAddItem_reject (handleAddItem s p t) p' t' hany
    refine ⟨h2, ?_⟩
    rw [h2, h1]
    show List.countP (fun it => it.code == p.code) (s.requestItems ++
        [({ code := p.code, desc := p.desc, id := p.code ++ "-" ++ toString t,
            qty := 1, reason := "" } : RequestItem)]) = 1
    have hzero : s.requestItems.countP (fun it => it.code == p.code) = 0 := by
      rw [List.countP_eq_zero]
      rw [List.any_eq_false] at hdup
      exact hdup
    simp [hzero]

/-- Witness for C9: add ("P1", "Widget") twice to the state `w3`
(store selected, list empty). -/
theorem C9_add_idempotent_witness :
    handleAddItem (handleAddItem w3 ⟨"P1", "Widget"⟩ 7) ⟨"P1", "Widget"⟩ 9 =
      { handleAddItem w3 ⟨"P1", "Widget"⟩ 7 with
          status := ⟨.info, "Produk sudah ada di daftar."⟩,
          timers := (handleAddItem w3 ⟨"P1", "Widget"⟩ 7).timers ++ [(3000, ⟨.idle, ""⟩)] }
    ∧ (handleAddItem (handleAddItem w3 ⟨"P1", "Widget"⟩ 7) ⟨"P1", "Widget"⟩ 9).requestItems.countP
        (fun it => it.code == (⟨"P1", "Widget"⟩ : Product).code) = 1 :=
  C9_add_idempotent w3 ⟨"P1", "Widget"⟩ ⟨"P1", "Widget"⟩ 7 9 rfl (by decide)

/-- Claim C10: a rejected add (duplicate code) leaves the search query
and the displayed result list unchanged; a successful add clears them. -/
theorem C10_reject_frame (s : AppState) (p : Product) (t : Nat) :
    ((s.requestItems.any fun it => it.code == p.code) = true →
      (handleAddItem s p t).searchTerm = s.searchTerm ∧
      (handleAddItem s p t).filteredProducts = s.filteredProducts)
    ∧ ((s.requestItems.any fun it => it.code == p.code) = false →
      (handleAddItem s p t).searchTerm = "" ∧
      (handleAddItem s p t).filteredProducts = []) := by
  constructor <;> intro h <;> simp [handleAddItem, h]

/-- Witness for C10: a duplicate add while a search is displayed leaves
the query and results alone; a fresh add from `w3` clears them. -/
theorem C10_reject_frame_witness :
    ((handleAddItem { w4 with searchTerm := "wi", filteredProducts := [⟨"P1", "Widget"⟩] }
        ⟨"P1", "Widget"⟩ 9).searchTerm =
      ({ w4 with searchTerm := "wi", filteredProducts := [⟨"P1", "Widget"⟩] } : AppState).searchTerm ∧
     (handleAddItem { w4 with searchTerm := "wi", filteredProducts := [⟨"P1", "Widget"⟩] }
        ⟨"P1", "Widget"⟩ 9).filteredProducts =
      ({ w4 with searchTerm := "wi", filteredProducts := [⟨"P1", "Widget"⟩] } : AppState).filteredProducts)
    ∧ ((handleAddItem w3 ⟨"P1", "Widget"⟩ 7).searchTerm = "" ∧
       (handleAddItem w3 ⟨"P1", "Widget"⟩ 7).filteredProducts = []) :=
  ⟨(C10_reject_frame { w4 with searchTerm := "wi", filteredProducts := [⟨"P1", "Widget"⟩] }
      ⟨"P1", "Widget"⟩ 9).1 (by decide),
   (C10_reject_frame w3 ⟨"P1", "Widget"⟩ 7).2 (by decide)⟩

end SpecialRequest
